import Mathlib

/-!
# flamingo-commerce: checkout API controller, checkout controller, cart template
functions and the place-order process engine

A shallow embedding of

* `checkout/interfaces/controller/apicontroller.go`
* `checkout/interfaces/controller/checkoutcontroller.go`
* `checkout/domain/placeorder/process/state.go`
* `cart/interfaces/templatefunctions/getCart.go`

Effectful Go code is written in explicit state-passing style over a world `W`
(everything the collaborators may read or change).  Every controller function
returns, next to its result and the new world, the list of collaborator calls it
made, in the order of the call sites in the source.
-/

namespace Flamingo

set_option linter.dupNamespace false

/-! ## Shared data -/

/-- Go `error` values.  Errors are compared by identity in the source
(`err == placeorder.ErrAnotherPlaceOrderProcessRunning`), so the sentinel errors of
package `placeorder` are constructors of their own; `other` is any other error,
carrying the text its `Error()` method returns. -/
inductive Error where
  | ErrAnotherPlaceOrderProcessRunning
  | NoProcessFound
  | ProcessNotFinal
  | other (text : String)
  deriving DecidableEq, Repr

/-- Modelled from the spec: the declarations of the sentinel errors are outside the
sources here, so the text of a sentinel is the name the specification gives it. -/
def Error.Error : Error → String
  | .ErrAnotherPlaceOrderProcessRunning => "AnotherProcessRunning"
  | .NoProcessFound => "NoProcessFound"
  | .ProcessNotFinal => "ProcessNotFinal"
  | .other text => text

deriving instance DecidableEq for Except

/-- The cart aggregate (package `cart/domain/cart`, declared elsewhere in the
repository).  Only what the code here reads is kept: an identity and the value of the
`ItemCount()` method. -/
structure Cart where
  ID : String
  ItemCount : Int
  deriving DecidableEq, Repr

/-- Go's zero value `cartDomain.Cart{}`. -/
def Cart.zero : Cart := { ID := "", ItemCount := 0 }

/-- The decorated cart (package `cart/domain/decorator`): a cart plus decoration. -/
structure DecoratedCart where
  Cart : Cart
  Decoration : String
  deriving DecidableEq, Repr

/-- Go's zero value `cartDomain.DecoratedCart{}`. -/
def DecoratedCart.zero : DecoratedCart := { Cart := Cart.zero, Decoration := "" }

/-- A parsed `*url.URL`. -/
structure URL where
  raw : String
  deriving DecidableEq, Repr

/-- The web session of a request, identified by its id. -/
structure Session where
  ID : String
  deriving DecidableEq, Repr

/-- The request context; `web.SessionFromContext` reads the session from it. -/
structure Context where
  session : Session
  deriving DecidableEq, Repr

/-- Function `web.SessionFromContext`. -/
def SessionFromContext (ctx : Context) : Session := ctx.session

/-- A `*web.Request`, as far as the code here uses it: `Query1` gives the first
value of a query parameter or an error when the parameter is absent. -/
structure Request where
  Query1 : String → Except Error String

/-- `interface{}` payload of a state: `none` is the nil interface. -/
abbrev StateData := Option String

/-- `RollbackData`, an `interface{}` payload: `none` is the nil interface. -/
abbrev RollbackData := Option String

/-- `FailedReason` is an interface with a `Reason() string` method. -/
structure FailedReason where
  Reason : String
  deriving DecidableEq, Repr

/-- `application.PlaceOrderPaymentInfo`, kept as an opaque record. -/
structure PlaceOrderPaymentInfo where
  ident : String
  deriving DecidableEq, Repr

/-- `placeorderDomain.PlacedOrderInfo`, kept as an opaque record. -/
structure PlacedOrderInfo where
  OrderNumber : String
  deriving DecidableEq, Repr

/-- `application.PlaceOrderInfo`: the fields the API controller reads. -/
structure PlaceOrderInfo where
  PaymentInfos : List PlaceOrderPaymentInfo
  PlacedOrders : List PlacedOrderInfo
  ContactEmail : String
  deriving DecidableEq, Repr

/-- One entry of the rollback ledger: the originating state and the data it recorded
when it completed. -/
structure RollbackReference where
  StateName : String
  Data : RollbackData
  deriving DecidableEq, Repr

/-- The persisted place-order process (the `pctx` the handler returns).  Pointer
fields of the source (`PlaceOrderInfo`, `FailedReason`) are options. -/
structure Process where
  UUID : String
  Cart : Cart
  CurrentStateName : String
  CurrentStateData : StateData
  RollbackLedger : List RollbackReference
  FailedReason : Option FailedReason
  PlaceOrderInfo : Option PlaceOrderInfo
  ReturnURL : Option URL
  deriving DecidableEq, Repr

/-! ## `apicontroller.go` -/

/-- Command `placeorder.StartPlaceOrderCommand`. -/
structure StartPlaceOrderCommand where
  Cart : Cart
  ReturnURL : Option URL
  deriving DecidableEq, Repr

/-- Command `placeorder.RefreshPlaceOrderCommand`, an empty struct. -/
structure RefreshPlaceOrderCommand where
  deriving DecidableEq, Repr

/-- Command `placeorder.CancelPlaceOrderCommand`, an empty struct. -/
structure CancelPlaceOrderCommand where
  deriving DecidableEq, Repr

/-- Type `startPlaceOrderResult`. -/
structure startPlaceOrderResult where
  UUID : String
  deriving DecidableEq, Repr

/-- Type `placedOrderInfos`. -/
structure placedOrderInfos where
  PaymentInfos : List PlaceOrderPaymentInfo
  PlacedOrderInfos : List PlacedOrderInfo
  Email : String
  PlacedDecoratedCart : Option DecoratedCart
  deriving DecidableEq, Repr

/-- Type `placeOrderContext`. -/
structure placeOrderContext where
  Cart : Option Cart
  OrderInfos : Option placedOrderInfos
  State : String
  StateData : StateData
  UUID : String
  FailedReason : String
  deriving DecidableEq, Repr

/-- Type `errorResponse`. -/
structure errorResponse where
  Code : String
  Message : String
  deriving DecidableEq, Repr

/-- What the API controller hands to `responder.Data`. -/
inductive Payload where
  | error (e : errorResponse)
  | started (r : startPlaceOrderResult)
  | bool (b : Bool)
  | context (c : placeOrderContext)
  deriving DecidableEq, Repr

/-- Constant `http.StatusOK`. -/
def StatusOK : Nat := 200
/-- Constant `http.StatusCreated`. -/
def StatusCreated : Nat := 201
/-- Constant `http.StatusBadRequest`. -/
def StatusBadRequest : Nat := 400
/-- Constant `http.StatusInternalServerError`. -/
def StatusInternalServerError : Nat := 500

/-- A `*web.DataResponse`: the data and the HTTP status. -/
structure DataResponse where
  Data : Payload
  Status : Nat
  deriving DecidableEq, Repr

/-- Method `Responder.Data`: a data response with status 200. -/
def Responder.Data (d : Payload) : DataResponse := { Data := d, Status := StatusOK }

/-- Method `DataResponse.Status(status)`: sets the HTTP status. -/
def DataResponse.withStatus (r : DataResponse) (status : Nat) : DataResponse :=
  { r with Status := status }

/-- The collaborator calls the API controller makes. -/
inductive APICall where
  | ViewCart (session : Session)
  | StartPlaceOrder (cmd : StartPlaceOrderCommand)
  | RefreshPlaceOrder
  | CancelPlaceOrder
  | ClearPlaceOrder
  | CurrentContext
  | DecoratedCartFactoryCreate (cart : Cart)
  deriving DecidableEq, Repr

/-- The `*placeorder.Handler` the controller is injected with.  The handler lives
outside `apicontroller.go`; the controller sees it through these five methods.  A
Go result pair `(*Process, error)` is an `Except`: the handler returns a process
exactly when it returns a nil error. -/
structure Handler (W : Type) where
  StartPlaceOrder : Context → StartPlaceOrderCommand → W → Except Error Process × W
  RefreshPlaceOrder : Context → RefreshPlaceOrderCommand → W → Except Error Process × W
  CancelPlaceOrder : Context → CancelPlaceOrderCommand → W → Option Error × W
  ClearPlaceOrder : Context → W → Option Error × W
  CurrentContext : Context → W → Except Error Process × W

/-- Type `APIController` with its injected collaborators; `urlParse` is `url.Parse`
of the standard library. -/
structure APIController (W : Type) where
  placeorderHandler : Handler W
  ViewCart : Context → Session → W → Except Error Cart × W
  decoratedCartFactoryCreate : Context → Cart → W → DecoratedCart × W
  urlParse : String → Except Error URL

/-- The response every failure branch of the controller builds:
`c.responder.Data(errorResponse{Code, Message})` followed by `response.Status`. -/
def errorResult (code : String) (message : String) (status : Nat) : DataResponse :=
  (Responder.Data (.error { Code := code, Message := message })).withStatus status

/-- Method `APIController.StartPlaceOrderAction`. -/
def APIController.StartPlaceOrderAction {W : Type} (c : APIController W) (ctx : Context)
    (r : Request) (w : W) : DataResponse × List APICall × W :=
  let session := SessionFromContext ctx
  match c.ViewCart ctx session w with
  | (.error err, w1) =>
    (errorResult "500" err.Error StatusInternalServerError, [.ViewCart session], w1)
  | (.ok cart, w1) =>
    match r.Query1 "returnURL" with
    | .error _ =>
      (errorResult "400" "returnURL missing" StatusBadRequest, [.ViewCart session], w1)
    | .ok returnURLRaw =>
      match c.urlParse returnURLRaw with
      | .error err =>
        (errorResult "400" err.Error StatusBadRequest, [.ViewCart session], w1)
      | .ok returnURL =>
        let startPlaceOrderCommand : StartPlaceOrderCommand :=
          { Cart := cart, ReturnURL := some returnURL }
        match c.placeorderHandler.StartPlaceOrder ctx startPlaceOrderCommand w1 with
        | (.error err, w2) =>
          if err = Error.ErrAnotherPlaceOrderProcessRunning then
            match c.placeorderHandler.RefreshPlaceOrder ctx {} w2 with
            | (.error err2, w3) =>
              (errorResult "500" err2.Error StatusInternalServerError,
                [.ViewCart session, .StartPlaceOrder startPlaceOrderCommand,
                  .RefreshPlaceOrder], w3)
            | (.ok dtopctx, w3) =>
              (Responder.Data (.started { UUID := dtopctx.UUID }),
                [.ViewCart session, .StartPlaceOrder startPlaceOrderCommand,
                  .RefreshPlaceOrder], w3)
          else
            (errorResult "500" err.Error StatusInternalServerError,
              [.ViewCart session, .StartPlaceOrder startPlaceOrderCommand], w2)
        | (.ok pctx, w2) =>
          ((Responder.Data (.started { UUID := pctx.UUID })).withStatus StatusCreated,
            [.ViewCart session, .StartPlaceOrder startPlaceOrderCommand], w2)

/-- Method `APIController.CancelPlaceOrderAction`. -/
def APIController.CancelPlaceOrderAction {W : Type} (c : APIController W) (ctx : Context)
    (w : W) : DataResponse × List APICall × W :=
  match c.placeorderHandler.CancelPlaceOrder ctx {} w with
  | (some err, w1) =>
    (errorResult "500" err.Error StatusInternalServerError, [.CancelPlaceOrder], w1)
  | (none, w1) => (Responder.Data (.bool true), [.CancelPlaceOrder], w1)

/-- Method `APIController.ClearPlaceOrderAction`. -/
def APIController.ClearPlaceOrderAction {W : Type} (c : APIController W) (ctx : Context)
    (w : W) : DataResponse × List APICall × W :=
  match c.placeorderHandler.ClearPlaceOrder ctx w with
  | (some err, w1) =>
    (errorResult "500" err.Error StatusInternalServerError, [.ClearPlaceOrder], w1)
  | (none, w1) => (Responder.Data (.bool true), [.ClearPlaceOrder], w1)

/-- Method `APIController.CurrentPlaceOrderContextAction`. -/
def APIController.CurrentPlaceOrderContextAction {W : Type} (c : APIController W)
    (ctx : Context) (w : W) : DataResponse × List APICall × W :=
  match c.placeorderHandler.CurrentContext ctx w with
  | (.error err, w1) =>
    (errorResult "500" err.Error StatusInternalServerError, [.CurrentContext], w1)
  | (.ok pctx, w1) =>
    let infos : Option placedOrderInfos × List APICall × W :=
      match pctx.PlaceOrderInfo with
      | some info =>
        match c.decoratedCartFactoryCreate ctx pctx.Cart w1 with
        | (decoratedCart, w2) =>
          (some
            { PaymentInfos := info.PaymentInfos
              PlacedOrderInfos := info.PlacedOrders
              Email := info.ContactEmail
              PlacedDecoratedCart := some decoratedCart },
            [.DecoratedCartFactoryCreate pctx.Cart], w2)
      | none => (none, [], w1)
    let failedReason : String :=
      match pctx.FailedReason with
      | some reason => reason.Reason
      | none => ""
    (Responder.Data (.context
        { Cart := some pctx.Cart
          OrderInfos := infos.1
          State := pctx.CurrentStateName
          StateData := pctx.CurrentStateData
          FailedReason := failedReason
          UUID := pctx.UUID }),
      .CurrentContext :: infos.2.1, infos.2.2)

/-! ## `getCart.go` -/

/-- The collaborator calls the cart template functions make. -/
inductive TemplateCall where
  | ViewCart
  | ViewDecoratedCart
  | LoggerError (format : String) (e : Error)
  deriving DecidableEq, Repr

/-- Go's pointer dereference `*p`: a nil pointer panics, which ends the function. -/
def deref {α : Type} (p : Option α) : Except String α :=
  match p with
  | some v => .ok v
  | none => .error "invalid memory address or nil pointer dereference"

/-- Type `GetCart` with the method of `ApplicationCartReceiverService` it calls.
`ViewCart` returns the Go pair `(*Cart, error)`: either part may be nil. -/
structure GetCart (W : Type) where
  ViewCart : Context → W → (Option Cart × Option Error) × W

/-- Type `GetDecoratedCart` with the method of `ApplicationCartReceiverService` it
calls.  `ViewDecoratedCart` returns the Go pair `(*DecoratedCart, error)`. -/
structure GetDecoratedCart (W : Type) where
  ViewDecoratedCart : Context → W → (Option DecoratedCart × Option Error) × W

/-- Method `GetCart.Name`. -/
def GetCart.Name {W : Type} (_tf : GetCart W) : String := "getCart"

/-- Method `GetCart.Func`: the closure it returns, run in world `w`. -/
def GetCart.Func {W : Type} (tf : GetCart W) (ctx : Context) (w : W) :
    Except String Cart × List TemplateCall × W :=
  match tf.ViewCart ctx w with
  | ((cart, e), w1) =>
    let logged : List TemplateCall :=
      match e with
      | some err => [.LoggerError "Error: cart.interfaces.templatefunc %v" err]
      | none => []
    let cart : Option Cart :=
      match cart with
      | none => some Cart.zero
      | some c => some c
    (deref cart, .ViewCart :: logged, w1)

/-- Method `GetDecoratedCart.Name`. -/
def GetDecoratedCart.Name {W : Type} (_tf : GetDecoratedCart W) : String :=
  "getDecoratedCart"

/-- Method `GetDecoratedCart.Func`: the closure it returns, run in world `w`. -/
def GetDecoratedCart.Func {W : Type} (tf : GetDecoratedCart W) (ctx : Context) (w : W) :
    Except String DecoratedCart × List TemplateCall × W :=
  match tf.ViewDecoratedCart ctx w with
  | ((cart, e), w1) =>
    let logged : List TemplateCall :=
      match e with
      | some err => [.LoggerError "Error: cart.interfaces.templatefunc %v" err]
      | none => []
    let cart : Option DecoratedCart :=
      match cart with
      | none => some DecoratedCart.zero
      | some c => some c
    (deref cart, .ViewDecoratedCart :: logged, w1)

/-! ## `checkoutcontroller.go` -/

/-- An address of the checkout form (`formDto`), as far as the controller reads it. -/
structure AddressFormData where
  Email : String
  deriving DecidableEq, Repr

/-- Type `formDto.CheckoutFormData`. -/
structure CheckoutFormData where
  BillingAddress : AddressFormData
  ShippingAddress : AddressFormData
  deriving DecidableEq, Repr

/-- The `interface{}` in `Form.Data`: a `CheckoutFormData` value or a value of some
other dynamic type.  The type assertion `form.Data.(formDto.CheckoutFormData)`
succeeds on the first constructor only. -/
inductive FormData where
  | checkout (d : CheckoutFormData)
  | other (typeName : String)
  deriving DecidableEq, Repr

/-- Type `domain.Form`: its data and the value of `IsValidAndSubmitted()`. -/
structure Form where
  Data : FormData
  IsValidAndSubmitted : Bool
  deriving DecidableEq, Repr

/-- Type `cart.CartValidationResult`, kept as an opaque record. -/
structure CartValidationResult where
  IsValid : Bool
  deriving DecidableEq, Repr

/-- A cart-domain address as produced by `formDto.MapAddresses`. -/
structure Address where
  Email : String
  deriving DecidableEq, Repr

/-- Type `formDto.CheckoutFormService`; the customer it was given, if any. -/
structure CheckoutFormService where
  Customer : Option String
  deriving DecidableEq, Repr

/-- Type `CheckoutViewData`. -/
structure CheckoutViewData where
  DecoratedCart : DecoratedCart
  Form : Form
  CartValidationResult : CartValidationResult
  ErrorMessage : String
  HasSubmitError : Bool
  deriving DecidableEq, Repr

/-- Type `SuccessViewData`. -/
structure SuccessViewData where
  OrderId : String
  Email : String
  deriving DecidableEq, Repr

/-- A `web.Response` of the checkout controller: `Render(ctx, template, data)` or
`Redirect(name, nil).With(key, data)`. -/
inductive Response where
  | Render (template : String) (data : Option CheckoutViewData)
  | RedirectWith (name : String) (key : String) (data : SuccessViewData)
  deriving DecidableEq, Repr

/-- The collaborator calls `submitOrderForm` makes. -/
inductive CheckoutCall where
  | GetDecoratedCart
  | LoggerErrorf (format : String) (e : Error)
  | LoggerError (message : String)
  | ProcessFormRequest (formservice : CheckoutFormService)
  | ValidateCart (decoratedCart : DecoratedCart)
  | PlaceOrder (decoratedCart : DecoratedCart) (payment : String) (shipping : String)
      (billingAddress : Address) (shippingAddress : Address)
  deriving DecidableEq, Repr

/-- Whether a call is `OrderService.PlaceOrder`. -/
def CheckoutCall.isPlaceOrder : CheckoutCall → Bool
  | .PlaceOrder _ _ _ _ _ => true
  | _ => false

/-- Type `CheckoutController` with the collaborator methods `submitOrderForm` uses.
Go pairs `(value, error)` of value types are pairs with an optional error. -/
structure CheckoutController (W : Type) where
  GetDecoratedCart : Context → W → (DecoratedCart × Option Error) × W
  ProcessFormRequest : Context → CheckoutFormService → W → (Form × Option Error) × W
  ValidateCart : Context → DecoratedCart → W → CartValidationResult × W
  MapAddresses : CheckoutFormData → Address × Address
  PlaceOrder : Context → DecoratedCart → String → String → Address → Address → W →
    (String × Option Error) × W

/-- Method `CheckoutController.placeOrder`. -/
def CheckoutController.placeOrder {W : Type} (cc : CheckoutController W) (ctx : Context)
    (checkoutFormData : CheckoutFormData) (decoratedCart : DecoratedCart) (w : W) :
    (String × Option Error) × List CheckoutCall × W :=
  match cc.MapAddresses checkoutFormData with
  | (billingAddress, shippingAddress) =>
    match cc.PlaceOrder ctx decoratedCart "ispu" "ispu" billingAddress shippingAddress w with
    | (res, w1) =>
      (res, [.PlaceOrder decoratedCart "ispu" "ispu" billingAddress shippingAddress], w1)

/-- The render every non-redirecting exit of `submitOrderForm` past the form
processing builds: the template with the cart, its validation result and the form. -/
def CheckoutController.renderForm {W : Type} (cc : CheckoutController W) (ctx : Context)
    (template : String) (decoratedCart : DecoratedCart) (form : Form)
    (hasSubmitError : Bool) (errorMessage : String) (w : W) :
    Response × List CheckoutCall × W :=
  match cc.ValidateCart ctx decoratedCart w with
  | (validation, w1) =>
    (.Render template (some
        { DecoratedCart := decoratedCart
          CartValidationResult := validation
          HasSubmitError := hasSubmitError
          Form := form
          ErrorMessage := errorMessage }),
      [.ValidateCart decoratedCart], w1)

/-- Method `CheckoutController.submitOrderForm`. -/
def CheckoutController.submitOrderForm {W : Type} (cc : CheckoutController W)
    (ctx : Context) (formservice : Option CheckoutFormService) (template : String)
    (w : W) : Response × List CheckoutCall × W :=
  match cc.GetDecoratedCart ctx w with
  | ((_, some e), w1) =>
    (.Render "checkout/carterror" none,
      [.GetDecoratedCart, .LoggerErrorf "cart.checkoutcontroller.submitaction: Error %v" e],
      w1)
  | ((decoratedCart, none), w1) =>
    match formservice with
    | none =>
      (.Render "checkout/carterror" none,
        [.GetDecoratedCart,
          .LoggerError
            "cart.checkoutcontroller.submitaction: Error CheckoutFormService not present!"],
        w1)
    | some fs =>
      match cc.ProcessFormRequest ctx fs w1 with
      | ((form, some _), w2) =>
        match cc.renderForm ctx template decoratedCart form false "" w2 with
        | (resp, calls, w3) =>
          (resp, [.GetDecoratedCart, .ProcessFormRequest fs] ++ calls, w3)
      | ((form, none), w2) =>
        if decoratedCart.Cart.ItemCount = 0 then
          match cc.renderForm ctx template decoratedCart form false "" w2 with
          | (resp, calls, w3) =>
            (resp, [.GetDecoratedCart, .ProcessFormRequest fs] ++ calls, w3)
        else if form.IsValidAndSubmitted then
          match form.Data with
          | .checkout checkoutFormData =>
            match cc.placeOrder ctx checkoutFormData decoratedCart w2 with
            | ((_, some err), callsOrder, w3) =>
              match cc.renderForm ctx template decoratedCart form true err.Error w3 with
              | (resp, calls, w4) =>
                (resp, [.GetDecoratedCart, .ProcessFormRequest fs] ++ callsOrder ++ calls,
                  w4)
            | ((orderID, none), callsOrder, w3) =>
              let shippingEmail :=
                if checkoutFormData.ShippingAddress.Email = "" then
                  checkoutFormData.BillingAddress.Email
                else checkoutFormData.ShippingAddress.Email
              (.RedirectWith "checkout.success" "checkout.success.data"
                  { OrderId := orderID, Email := shippingEmail },
                [.GetDecoratedCart, .ProcessFormRequest fs] ++ callsOrder, w3)
          | .other _ =>
            (.Render "checkout/carterror" none,
              [.GetDecoratedCart, .ProcessFormRequest fs,
                .LoggerError
                  "cart.checkoutcontroller.submitaction: Error cannot type convert to CheckoutFormData!"],
              w2)
        else
          match cc.renderForm ctx template decoratedCart form false "" w2 with
          | (resp, calls, w3) =>
            (resp, [.GetDecoratedCart, .ProcessFormRequest fs] ++ calls, w3)

/-! ## `state.go` -/

/-- Type `RunResult`: the rollback data a state recorded and the reason it failed
(each nil when absent). -/
structure RunResult where
  RollbackData : RollbackData
  Failed : Option FailedReason
  deriving DecidableEq, Repr

/-- Interface `State`.  `Run` receives the process by pointer, so it also yields the
process as the call left it; `Run` and `Rollback` act on the world `W` of the
external collaborators (payment gateway, order store). -/
structure State (W : Type) where
  Run : Context → Process → StateData → W → (RunResult × Process) × W
  Rollback : Context → RollbackData → W → Option Error × W
  IsFinal : Bool
  Name : String

/-! ## The place-order engine

The handler behind `placeorder.Handler` and the process store are not among the
sources here; the definitions of this section follow sections 3, 4.2, 4.3 and 6 of
the specification. -/

/-- Modelled from the spec: the terminal failure variant of section 4.1 (item 6,
"Failed (final)"), whose declaration is absent from the sources here.  It is
final, does nothing when run and has nothing to roll back. -/
def Failed (W : Type) : State W :=
  { Run := fun _ p _ w => (({ RollbackData := none, Failed := none }, p), w)
    Rollback := fun _ _ w => (none, w)
    IsFinal := true
    Name := "Failed" }

/-- Modelled from the spec: the engine's configuration, absent from the sources
here.  Section 9 asks for "an explicit registry mapping name to variant
implementation" and "a bounded loop with a maximum step count guard"; section 4.2
names "the first state"; the UUID "assigned at creation" comes from a generator. -/
structure Engine (W : Type) where
  registry : String → State W
  firstState : String
  maxSteps : Nat
  newUUID : W → String × W

/-- Modelled from the spec: the process store of sections 5 and 6, absent from the
sources here: "explicit keyed storage (session id → Process)", next to the world of
the external collaborators. -/
structure EngineState (W : Type) where
  store : String → Option Process
  world : W

/-- Modelled from the spec: the process store operation `Load(sessionID)` of section
6, absent from the sources here. -/
def EngineState.Load {W : Type} (es : EngineState W) (ctx : Context) : Option Process :=
  es.store (SessionFromContext ctx).ID

/-- Modelled from the spec: the process store operation `Save(Process)` of section 6,
absent from the sources here; the process is stored under the session of the
request. -/
def EngineState.Save {W : Type} (es : EngineState W) (ctx : Context) (p : Process) :
    EngineState W :=
  { store := fun k => if k = (SessionFromContext ctx).ID then some p else es.store k
    world := es.world }

/-- Modelled from the spec: the process store operation `Delete(sessionID)` of section
6, absent from the sources here. -/
def EngineState.Delete {W : Type} (es : EngineState W) (ctx : Context) : EngineState W :=
  { store := fun k => if k = (SessionFromContext ctx).ID then none else es.store k
    world := es.world }

/-- Modelled from the spec: the record of the calls the engine makes on states, in
order; section 4.3 has a rollback error "recorded per entry", so a rollback call is
recorded with the error it returned. -/
inductive EngineCall where
  | Run (stateName : String)
  | Rollback (stateName : String) (data : RollbackData) (result : Option Error)
  deriving DecidableEq, Repr

/-- Modelled from the spec: resolving a persisted state name through the registry
(section 9), absent from the sources here.  The terminal `Failed` variant is
built in, the other variants come from the configuration. -/
def Engine.resolve {W : Type} (eng : Engine W) (name : String) : State W :=
  if name = (Failed W).Name then Failed W else eng.registry name

/-- Modelled from the spec: whether a process is in a final state, `IsFinal()` of
its current state (section 3), absent from the sources here. -/
def Engine.isFinal {W : Type} (eng : Engine W) (p : Process) : Bool :=
  (eng.resolve p.CurrentStateName).IsFinal

/-- Modelled from the spec: the unwind of section 4.3, absent from the sources
here: "executed in strict reverse order over the ledger: for each entry, invoke the
originating state's Rollback with its recorded RollbackData.  A rollback error is
recorded per entry but does not halt the unwind".  The entries appended after `entry`
are unwound first. -/
def Engine.rollback {W : Type} (eng : Engine W) (ctx : Context) :
    List RollbackReference → W → List EngineCall × W
  | [], w => ([], w)
  | entry :: later, w =>
    match eng.rollback ctx later w with
    | (calls, w1) =>
      match (eng.resolve entry.StateName).Rollback ctx entry.Data w1 with
      | (err, w2) => (calls ++ [.Rollback entry.StateName entry.Data err], w2)

/-- Modelled from the spec: step 3 of the transition algorithm with section 4.3,
absent from the sources here: "set process.FailedReason, run rollback, transition
CurrentStateName to the Failed terminal state"; the rollback errors stay in the call
record and do not replace the reason. -/
def Engine.fail {W : Type} (eng : Engine W) (ctx : Context) (p : Process)
    (reason : FailedReason) (w : W) : Process × List EngineCall × W :=
  match eng.rollback ctx p.RollbackLedger w with
  | (calls, w1) =>
    ({ p with
        FailedReason := some reason
        CurrentStateName := (Failed W).Name
        CurrentStateData := none },
      calls, w1)

/-- Modelled from the spec: the transition algorithm of section 4.2 (steps 2 to 5),
absent from the sources here, as a loop bounded by the step guard.  A final
process is returned as it is; a failed run starts the rollback; a run that neither
changes the state nor records rollback data is "pending"; otherwise the rollback
data is appended to the ledger, the process advances to the state the run declared,
and the loop goes on.  Of the process a run leaves behind its pointer the engine
takes the declared state, its data and the order info; identity, cart snapshot,
ledger and failure reason are the engine's own.  Every exit persists the process. -/
def Engine.run {W : Type} (eng : Engine W) (ctx : Context) :
    Nat → Process → EngineState W → Process × List EngineCall × EngineState W
  | 0, p, es => (p, [], es.Save ctx p)
  | fuel + 1, p, es =>
    if eng.isFinal p then (p, [], es.Save ctx p)
    else
      match (eng.resolve p.CurrentStateName).Run ctx p p.CurrentStateData es.world with
      | ((result, after), w1) =>
        match result.Failed with
        | some reason =>
          match eng.fail ctx p reason w1 with
          | (failed, calls, w2) =>
            (failed, .Run p.CurrentStateName :: calls,
              EngineState.Save { store := es.store, world := w2 } ctx failed)
        | none =>
          if after.CurrentStateName = p.CurrentStateName ∧ result.RollbackData = none then
            (p, [.Run p.CurrentStateName],
              EngineState.Save { store := es.store, world := w1 } ctx p)
          else
            let next : Process :=
              { p with
                  CurrentStateName := after.CurrentStateName
                  CurrentStateData := after.CurrentStateData
                  PlaceOrderInfo := after.PlaceOrderInfo
                  RollbackLedger := p.RollbackLedger ++
                    [{ StateName := p.CurrentStateName, Data := result.RollbackData }] }
            match eng.run ctx fuel next
                (EngineState.Save { store := es.store, world := w1 } ctx next) with
            | (final, calls, es2) => (final, .Run p.CurrentStateName :: calls, es2)

/-- Modelled from the spec: `StartPlaceOrder(cart, returnURL)` of section 4.2, absent
from the sources here: "fails with AnotherProcessRunning if a non-final Process
already exists for the session"; otherwise "constructs a new Process with UUID, sets
CurrentStateName to the first state, and executes transitions". -/
def Engine.StartPlaceOrder {W : Type} (eng : Engine W) (ctx : Context)
    (cmd : StartPlaceOrderCommand) (es : EngineState W) :
    Except Error Process × List EngineCall × EngineState W :=
  let create : Unit → Except Error Process × List EngineCall × EngineState W := fun _ =>
    match eng.newUUID es.world with
    | (uuid, w1) =>
      let fresh : Process :=
        { UUID := uuid
          Cart := cmd.Cart
          CurrentStateName := eng.firstState
          CurrentStateData := none
          RollbackLedger := []
          FailedReason := none
          PlaceOrderInfo := none
          ReturnURL := cmd.ReturnURL }
      match eng.run ctx eng.maxSteps fresh { store := es.store, world := w1 } with
      | (p, calls, es1) => (.ok p, calls, es1)
  match es.Load ctx with
  | some existing =>
    if eng.isFinal existing then create ()
    else (.error .ErrAnotherPlaceOrderProcessRunning, [], es)
  | none => create ()

/-- Modelled from the spec: `RefreshPlaceOrder()` of section 4.2, absent from the
sources here: re-enters the current state of the existing process; "fails with
NoProcessFound if none exists". -/
def Engine.RefreshPlaceOrder {W : Type} (eng : Engine W) (ctx : Context)
    (es : EngineState W) : Except Error Process × List EngineCall × EngineState W :=
  match es.Load ctx with
  | none => (.error .NoProcessFound, [], es)
  | some existing =>
    match eng.run ctx eng.maxSteps existing es with
    | (p, calls, es1) => (.ok p, calls, es1)

/-- Modelled from the spec: `CurrentContext()` of section 4.2, absent from the sources
here: "pure read; never advances state; fails with NoProcessFound if no Process is
persisted for the session". -/
def Engine.CurrentContext {W : Type} (_eng : Engine W) (ctx : Context)
    (es : EngineState W) : Except Error Process × List EngineCall × EngineState W :=
  match es.Load ctx with
  | none => (.error .NoProcessFound, [], es)
  | some existing => (.ok existing, [], es)

/-- Modelled from the spec: `ClearPlaceOrder()` of section 4.2, absent from the
sources here: "removes the persisted Process; fails with ProcessNotFinal if the
current state is not final".  The specification names no failure for a session
without a process; there is nothing to remove then. -/
def Engine.ClearPlaceOrder {W : Type} (eng : Engine W) (ctx : Context)
    (es : EngineState W) : Option Error × List EngineCall × EngineState W :=
  match es.Load ctx with
  | none => (none, [], es)
  | some existing =>
    if eng.isFinal existing then (none, [], es.Delete ctx)
    else (some .ProcessNotFinal, [], es)

/-- The ledger entry a recorded call unwound, if the call is a rollback. -/
def EngineCall.rollbackEntry : EngineCall → Option RollbackReference
  | .Rollback stateName data _ => some { StateName := stateName, Data := data }
  | .Run _ => none

/-- Modelled from the spec: one step of the unwind in the words of section 4.3, to be
compared with `Engine.rollback`: invoke the originating state's
`Rollback` with the recorded data, record the call with its error, and go on with
the world the call left, whatever the error. -/
def Engine.unwindStep {W : Type} (eng : Engine W) (ctx : Context)
    (acc : List EngineCall × W) (entry : RollbackReference) : List EngineCall × W :=
  match (eng.resolve entry.StateName).Rollback ctx entry.Data acc.2 with
  | (err, w) => (acc.1 ++ [.Rollback entry.StateName entry.Data err], w)

/-! ### A small configuration of the engine

Validation, payment creation, waiting for the payment and order persistence over a
world that counts the UUIDs handed out; every compensating action fails. -/

/-- A state that advances to `next`, recording `data` for its rollback; its rollback
always returns an error. -/
def advancingState (name next : String) (data : RollbackData) : State Nat :=
  { Run := fun _ p _ w =>
      (({ RollbackData := data, Failed := none },
        { p with CurrentStateName := next, CurrentStateData := data }), w)
    Rollback := fun _ _ w => (some (.other ("rollback of " ++ name ++ " failed")), w)
    IsFinal := false
    Name := name }

/-- A state that waits: its run changes nothing and records nothing. -/
def waitingState (name : String) : State Nat :=
  { Run := fun _ p _ w => (({ RollbackData := none, Failed := none }, p), w)
    Rollback := fun _ _ w => (some (.other ("rollback of " ++ name ++ " failed")), w)
    IsFinal := false
    Name := name }

/-- A state whose run fails with `reason`. -/
def failingState (name : String) (reason : String) : State Nat :=
  { Run := fun _ p _ w =>
      (({ RollbackData := none, Failed := some { Reason := reason } }, p), w)
    Rollback := fun _ _ w => (some (.other ("rollback of " ++ name ++ " failed")), w)
    IsFinal := false
    Name := name }

/-- The terminal success state. -/
def successState : State Nat :=
  { Run := fun _ p _ w => (({ RollbackData := none, Failed := none }, p), w)
    Rollback := fun _ _ w => (none, w)
    IsFinal := true
    Name := "Success" }

/-- An engine whose chain stops at the payment confirmation, which is pending. -/
def sampleEngine : Engine Nat :=
  { registry := fun name =>
      if name = "ValidateCart" then advancingState "ValidateCart" "CreatePayment" none
      else if name = "CreatePayment" then
        advancingState "CreatePayment" "AwaitPaymentConfirmation" (some "intent-7")
      else if name = "AwaitPaymentConfirmation" then waitingState "AwaitPaymentConfirmation"
      else if name = "PersistOrder" then failingState "PersistOrder" "order store down"
      else successState
    firstState := "ValidateCart"
    maxSteps := 16
    newUUID := fun n => ("uuid-" ++ toString n, n + 1) }

/-- The empty process store. -/
def emptyEngineState : EngineState Nat := { store := fun _ => none, world := 0 }

/-- A start command for the sample cart. -/
def sampleCommand : StartPlaceOrderCommand :=
  { Cart := { ID := "cart-1", ItemCount := 2 }
    ReturnURL := some { raw := "https://shop.example/return" } }

/-- A checkout controller over the trivial world: the cart service answers with
`cart`, the form service with `form`, and the order service with `order`. -/
def constCheckoutController (cart : DecoratedCart × Option Error)
    (form : Form × Option Error) (order : String × Option Error) :
    CheckoutController Unit :=
  { GetDecoratedCart := fun _ w => (cart, w)
    ProcessFormRequest := fun _ _ w => (form, w)
    ValidateCart := fun _ _ w => ({ IsValid := true }, w)
    MapAddresses := fun d =>
      ({ Email := d.BillingAddress.Email }, { Email := d.ShippingAddress.Email })
    PlaceOrder := fun _ _ _ _ _ _ w => (order, w) }

/-- A valid, submitted checkout form without a shipping email. -/
def sampleForm : Form :=
  { Data := .checkout
      { BillingAddress := { Email := "billing@shop.example" }
        ShippingAddress := { Email := "" } }
    IsValidAndSubmitted := true }

/-! ### Sample collaborators of the API controller -/

/-- A handler over the trivial world that answers every call with a fixed result. -/
def constHandler (start refresh current : Except Error Process)
    (cancel clear : Option Error) : Handler Unit :=
  { StartPlaceOrder := fun _ _ w => (start, w)
    RefreshPlaceOrder := fun _ _ w => (refresh, w)
    CancelPlaceOrder := fun _ _ w => (cancel, w)
    ClearPlaceOrder := fun _ w => (clear, w)
    CurrentContext := fun _ w => (current, w) }

/-- A controller over the trivial world: the cart service answers with `cart`, every
string parses as a URL except the empty one. -/
def constController (h : Handler Unit) (cart : Except Error Cart) : APIController Unit :=
  { placeorderHandler := h
    ViewCart := fun _ _ w => (cart, w)
    decoratedCartFactoryCreate := fun _ c w => ({ Cart := c, Decoration := "decorated" }, w)
    urlParse := fun raw =>
      if raw = "" then .error (.other "empty url") else .ok { raw := raw } }

/-- A request carrying `returnURL=raw`, or no `returnURL` when `raw` is `none`. -/
def requestWith (raw : Option String) : Request :=
  { Query1 := fun name =>
      match raw with
      | some v => if name = "returnURL" then .ok v else .error (.other "query not found")
      | none => .error (.other "query not found") }

/-- A sample process waiting for a payment. -/
def sampleProcess : Process :=
  { UUID := "uuid-1"
    Cart := { ID := "cart-1", ItemCount := 2 }
    CurrentStateName := "AwaitPaymentConfirmation"
    CurrentStateData := some "intent-7"
    RollbackLedger := [{ StateName := "CreatePayment", Data := some "intent-7" }]
    FailedReason := none
    PlaceOrderInfo := none
    ReturnURL := some { raw := "https://shop.example/return" } }

/-- A sample request context. -/
def sampleContext : Context := { session := { ID := "session-1" } }

/-- A handler whose world is the process stored for the session: `CurrentContext`
reads it, every other operation changes it. -/
def storeHandler : Handler (Option Process) :=
  { StartPlaceOrder := fun _ cmd w =>
      match w with
      | some _ => (.error .ErrAnotherPlaceOrderProcessRunning, w)
      | none =>
        (.ok { sampleProcess with Cart := cmd.Cart },
          some { sampleProcess with Cart := cmd.Cart })
    RefreshPlaceOrder := fun _ _ w =>
      match w with
      | some p =>
        (.ok { p with CurrentStateName := "PersistOrder" },
          some { p with CurrentStateName := "PersistOrder" })
      | none => (.error .NoProcessFound, w)
    CancelPlaceOrder := fun _ _ w =>
      match w with
      | some p => (none, some { p with CurrentStateName := "Failed" })
      | none => (some .NoProcessFound, w)
    ClearPlaceOrder := fun _ w =>
      match w with
      | some p =>
        if p.CurrentStateName = "Failed" then (none, none) else (some .ProcessNotFinal, w)
      | none => (none, w)
    CurrentContext := fun _ w =>
      match w with
      | some p => (.ok p, w)
      | none => (.error .NoProcessFound, w) }

/-- A controller on `storeHandler`; the decorated-cart factory leaves the world
alone. -/
def storeController : APIController (Option Process) :=
  { placeorderHandler := storeHandler
    ViewCart := fun _ _ w => (.ok sampleProcess.Cart, w)
    decoratedCartFactoryCreate := fun _ c w =>
      ({ Cart := c, Decoration := "decorated" }, w)
    urlParse := fun raw =>
      if raw = "" then .error (.other "empty url") else .ok { raw := raw } }

/-- A placed order: `sampleProcess` in the final `Success` state with its order
info. -/
def placedProcess : Process :=
  { sampleProcess with
      CurrentStateName := "Success"
      PlaceOrderInfo := some
        { PaymentInfos := [{ ident := "payment-1" }]
          PlacedOrders := [{ OrderNumber := "order-1" }]
          ContactEmail := "billing@shop.example" } }

/-- A checkout controller whose world is the number of orders placed so far: only
`OrderService.PlaceOrder` changes it. -/
def countingCheckoutController (cart : DecoratedCart × Option Error)
    (form : Form × Option Error) : CheckoutController Nat :=
  { GetDecoratedCart := fun _ w => (cart, w)
    ProcessFormRequest := fun _ _ w => (form, w)
    ValidateCart := fun _ _ w => ({ IsValid := true }, w)
    MapAddresses := fun d =>
      ({ Email := d.BillingAddress.Email }, { Email := d.ShippingAddress.Email })
    PlaceOrder := fun _ _ _ _ _ _ w => (("order-" ++ toString (w + 1), none), w + 1) }

/-- A process about to persist its order, with three completed states in its ledger. -/
def persistingProcess : Process :=
  { sampleProcess with
      CurrentStateName := "PersistOrder"
      CurrentStateData := some "intent-7"
      RollbackLedger :=
        [{ StateName := "ValidateCart", Data := none },
          { StateName := "CreatePayment", Data := some "intent-7" },
          { StateName := "AwaitPaymentConfirmation", Data := some "confirmed-7" }] }

/-! ## Theorems: `apicontroller.go` -/

/-- C1 (as amended): when the cart is retrieved, returnURL is present and parses, and
`Handler.StartPlaceOrder` fails with `ErrAnotherPlaceOrderProcessRunning`, the action
calls `Handler.RefreshPlaceOrder` exactly once, right after the start attempt.  If the
refresh returns a process, the response is a `startPlaceOrderResult` with that
process's UUID and status 200 (no `errorResponse`); if the refresh itself fails, the
response is an `errorResponse` with Code "500", the refresh error's text and status
500. -/
theorem StartPlaceOrderAction_falls_back_to_refresh {W : Type} (c : APIController W)
    (ctx : Context) (r : Request) (w w1 w2 : W) (cart : Cart) (raw : String) (url : URL)
    (hcart : c.ViewCart ctx (SessionFromContext ctx) w = (.ok cart, w1))
    (hquery : r.Query1 "returnURL" = .ok raw)
    (hparse : c.urlParse raw = .ok url)
    (hstart : c.placeorderHandler.StartPlaceOrder ctx
        { Cart := cart, ReturnURL := some url } w1
      = (.error Error.ErrAnotherPlaceOrderProcessRunning, w2)) :
    (c.StartPlaceOrderAction ctx r w).2.1
        = [.ViewCart (SessionFromContext ctx),
            .StartPlaceOrder { Cart := cart, ReturnURL := some url },
            .RefreshPlaceOrder]
      ∧ (c.StartPlaceOrderAction ctx r w).2.2
          = (c.placeorderHandler.RefreshPlaceOrder ctx {} w2).2
      ∧ (∀ p : Process, (c.placeorderHandler.RefreshPlaceOrder ctx {} w2).1 = .ok p →
          (c.StartPlaceOrderAction ctx r w).1
              = { Data := .started { UUID := p.UUID }, Status := 200 }
            ∧ ∀ e : errorResponse, (c.StartPlaceOrderAction ctx r w).1.Data ≠ .error e)
      ∧ (∀ err : Error, (c.placeorderHandler.RefreshPlaceOrder ctx {} w2).1 = .error err →
          (c.StartPlaceOrderAction ctx r w).1
            = { Data := .error { Code := "500", Message := err.Error }, Status := 500 }) := by
  rcases hrefresh : c.placeorderHandler.RefreshPlaceOrder ctx {} w2 with ⟨res, w3⟩
  cases res <;>
    simp [APIController.StartPlaceOrderAction, hcart, hquery, hparse, hstart, hrefresh,
      errorResult, Responder.Data, DataResponse.withStatus, StatusOK,
      StatusInternalServerError]

/-- Witness for C1 (as amended): start reports a running process, the refresh returns
`sampleProcess`, and the caller gets its UUID with status 200. -/
theorem StartPlaceOrderAction_falls_back_to_refresh_witness :
    ((constController
        (constHandler (.error .ErrAnotherPlaceOrderProcessRunning) (.ok sampleProcess)
          (.ok sampleProcess) none none)
        (.ok sampleProcess.Cart)).StartPlaceOrderAction sampleContext
      (requestWith (some "https://shop.example/return")) ()).1
      = { Data := .started { UUID := "uuid-1" }, Status := 200 } :=
  ((StartPlaceOrderAction_falls_back_to_refresh
      (constController
        (constHandler (.error .ErrAnotherPlaceOrderProcessRunning) (.ok sampleProcess)
          (.ok sampleProcess) none none)
        (.ok sampleProcess.Cart))
      sampleContext (requestWith (some "https://shop.example/return")) () () ()
      sampleProcess.Cart "https://shop.example/return"
      { raw := "https://shop.example/return" } rfl rfl (by decide) rfl).2.2.1
    sampleProcess rfl).1

/-- C1 (as stated) fails: the cart is retrieved, returnURL is present and parses,
`StartPlaceOrder` fails with `ErrAnotherPlaceOrderProcessRunning`, and the refresh
the action falls back to fails as well; the response is an `errorResponse` with
status 500, not a `startPlaceOrderResult`. -/
theorem StartPlaceOrderAction_fallback_can_answer_error :
    (constController
        (constHandler (.error .ErrAnotherPlaceOrderProcessRunning)
          (.error (.other "process lock not acquired")) (.ok sampleProcess) none none)
        (.ok sampleProcess.Cart)).ViewCart sampleContext (SessionFromContext sampleContext) ()
      = (.ok sampleProcess.Cart, ())
    ∧ (requestWith (some "https://shop.example/return")).Query1 "returnURL"
      = .ok "https://shop.example/return"
    ∧ (constController
        (constHandler (.error .ErrAnotherPlaceOrderProcessRunning)
          (.error (.other "process lock not acquired")) (.ok sampleProcess) none none)
        (.ok sampleProcess.Cart)).urlParse "https://shop.example/return"
      = .ok { raw := "https://shop.example/return" }
    ∧ (constHandler (.error .ErrAnotherPlaceOrderProcessRunning)
          (.error (.other "process lock not acquired")) (.ok sampleProcess) none
          none).StartPlaceOrder sampleContext
        { Cart := sampleProcess.Cart
          ReturnURL := some { raw := "https://shop.example/return" } } ()
      = (.error .ErrAnotherPlaceOrderProcessRunning, ())
    ∧ ((constController
        (constHandler (.error .ErrAnotherPlaceOrderProcessRunning)
          (.error (.other "process lock not acquired")) (.ok sampleProcess) none none)
        (.ok sampleProcess.Cart)).StartPlaceOrderAction sampleContext
      (requestWith (some "https://shop.example/return")) ()).1
      = { Data := .error { Code := "500", Message := "process lock not acquired" }
          Status := 500 }
    ∧ ¬ ∃ u : startPlaceOrderResult,
        ((constController
          (constHandler (.error .ErrAnotherPlaceOrderProcessRunning)
            (.error (.other "process lock not acquired")) (.ok sampleProcess) none none)
          (.ok sampleProcess.Cart)).StartPlaceOrderAction sampleContext
        (requestWith (some "https://shop.example/return")) ()).1.Data = .started u := by
  have hresp : ((constController
        (constHandler (.error .ErrAnotherPlaceOrderProcessRunning)
          (.error (.other "process lock not acquired")) (.ok sampleProcess) none none)
        (.ok sampleProcess.Cart)).StartPlaceOrderAction sampleContext
      (requestWith (some "https://shop.example/return")) ()).1
      = { Data := .error { Code := "500", Message := "process lock not acquired" }
          Status := 500 } := by decide
  refine ⟨rfl, rfl, by decide, rfl, hresp, ?_⟩
  rintro ⟨u, hu⟩
  rw [hresp] at hu
  cases hu

/-- C5: `StartPlaceOrderAction` answers with HTTP status 201 exactly when a new process
was started (the cart was retrieved, returnURL was present and parsed, and
`Handler.StartPlaceOrder` returned no error), and then the body is a
`startPlaceOrderResult` carrying the UUID of the process `StartPlaceOrder` returned. -/
theorem StartPlaceOrderAction_created_iff_started {W : Type} (c : APIController W)
    (ctx : Context) (r : Request) (w : W) :
    ((c.StartPlaceOrderAction ctx r w).1.Status = 201 ↔
      ∃ cart w1 raw url pctx w2,
        c.ViewCart ctx (SessionFromContext ctx) w = (.ok cart, w1)
        ∧ r.Query1 "returnURL" = .ok raw
        ∧ c.urlParse raw = .ok url
        ∧ c.placeorderHandler.StartPlaceOrder ctx { Cart := cart, ReturnURL := some url } w1
            = (.ok pctx, w2))
    ∧ ∀ cart w1 raw url pctx w2,
        c.ViewCart ctx (SessionFromContext ctx) w = (.ok cart, w1) →
        r.Query1 "returnURL" = .ok raw →
        c.urlParse raw = .ok url →
        c.placeorderHandler.StartPlaceOrder ctx { Cart := cart, ReturnURL := some url } w1
            = (.ok pctx, w2) →
        (c.StartPlaceOrderAction ctx r w).1
          = { Data := .started { UUID := pctx.UUID }, Status := 201 } := by
  constructor
  · rcases hcart : c.ViewCart ctx (SessionFromContext ctx) w with ⟨_ | cart, w1⟩
    · simp [APIController.StartPlaceOrderAction, hcart, errorResult, Responder.Data,
        DataResponse.withStatus, StatusInternalServerError]
    · rcases hquery : r.Query1 "returnURL" with _ | raw
      · simp [APIController.StartPlaceOrderAction, hcart, hquery, errorResult,
          Responder.Data, DataResponse.withStatus, StatusBadRequest]
      · rcases hparse : c.urlParse raw with _ | url
        · simp [APIController.StartPlaceOrderAction, hcart, hquery, hparse, errorResult,
            Responder.Data, DataResponse.withStatus, StatusBadRequest]
        · rcases hstart : c.placeorderHandler.StartPlaceOrder ctx
              { Cart := cart, ReturnURL := some url } w1 with ⟨_ | pctx, w2⟩
          · rename_i err
            by_cases herr : err = Error.ErrAnotherPlaceOrderProcessRunning
            · rcases hrefresh : c.placeorderHandler.RefreshPlaceOrder ctx {} w2 with
                ⟨_ | p, w3⟩ <;>
              simp [APIController.StartPlaceOrderAction, hcart, hquery, hparse, hstart,
                herr, hrefresh, errorResult, Responder.Data, DataResponse.withStatus,
                StatusInternalServerError, StatusOK]
            · simp [APIController.StartPlaceOrderAction, hcart, hquery, hparse, hstart,
                herr, errorResult, Responder.Data, DataResponse.withStatus,
                StatusInternalServerError]
          · simp [APIController.StartPlaceOrderAction, hcart, hquery, hparse, hstart,
              Responder.Data, DataResponse.withStatus, StatusCreated]
            exact ⟨cart, w1, ⟨rfl, rfl⟩, pctx, w2, hstart⟩
  · intro cart w1 raw url pctx w2 hcart hquery hparse hstart
    simp [APIController.StartPlaceOrderAction, hcart, hquery, hparse, hstart,
      Responder.Data, DataResponse.withStatus, StatusCreated]

/-- Witness for C5: on a session without a running process the start succeeds and
the caller gets status 201 with the UUID of the new process. -/
theorem StartPlaceOrderAction_created_iff_started_witness :
    ((constController
        (constHandler (.ok sampleProcess) (.ok sampleProcess) (.ok sampleProcess) none none)
        (.ok sampleProcess.Cart)).StartPlaceOrderAction sampleContext
      (requestWith (some "https://shop.example/return")) ()).1
      = { Data := .started { UUID := "uuid-1" }, Status := 201 } :=
  (StartPlaceOrderAction_created_iff_started
    (constController
      (constHandler (.ok sampleProcess) (.ok sampleProcess) (.ok sampleProcess) none none)
      (.ok sampleProcess.Cart))
    sampleContext (requestWith (some "https://shop.example/return")) ()).2
    sampleProcess.Cart () "https://shop.example/return"
    { raw := "https://shop.example/return" } sampleProcess () rfl rfl (by decide) rfl

/-- C6: the API controller never swallows a command failure.  For each of
`CancelPlaceOrderAction`, `ClearPlaceOrderAction` and `CurrentPlaceOrderContextAction`
the response is an `errorResponse` with Code "500", the handler error's text as
Message and HTTP status 500 exactly when the handler operation returned a non-nil
error; when there is no error, Cancel and Clear answer with the value `true`. -/
theorem command_failures_are_reported {W : Type} (c : APIController W) (ctx : Context)
    (w : W) :
    ((∀ err, (c.placeorderHandler.CancelPlaceOrder ctx {} w).1 = some err →
          (c.CancelPlaceOrderAction ctx w).1
            = { Data := .error { Code := "500", Message := err.Error }, Status := 500 })
      ∧ ((c.placeorderHandler.CancelPlaceOrder ctx {} w).1 = none →
          (c.CancelPlaceOrderAction ctx w).1 = { Data := .bool true, Status := 200 })
      ∧ ((∃ e, (c.CancelPlaceOrderAction ctx w).1.Data = .error e) ↔
          (c.placeorderHandler.CancelPlaceOrder ctx {} w).1 ≠ none))
    ∧ ((∀ err, (c.placeorderHandler.ClearPlaceOrder ctx w).1 = some err →
          (c.ClearPlaceOrderAction ctx w).1
            = { Data := .error { Code := "500", Message := err.Error }, Status := 500 })
      ∧ ((c.placeorderHandler.ClearPlaceOrder ctx w).1 = none →
          (c.ClearPlaceOrderAction ctx w).1 = { Data := .bool true, Status := 200 })
      ∧ ((∃ e, (c.ClearPlaceOrderAction ctx w).1.Data = .error e) ↔
          (c.placeorderHandler.ClearPlaceOrder ctx w).1 ≠ none))
    ∧ ((∀ err, (c.placeorderHandler.CurrentContext ctx w).1 = .error err →
          (c.CurrentPlaceOrderContextAction ctx w).1
            = { Data := .error { Code := "500", Message := err.Error }, Status := 500 })
      ∧ ((∃ e, (c.CurrentPlaceOrderContextAction ctx w).1.Data = .error e) ↔
          ∃ err, (c.placeorderHandler.CurrentContext ctx w).1 = .error err)) := by
  refine ⟨?_, ?_, ?_⟩
  · rcases h : c.placeorderHandler.CancelPlaceOrder ctx {} w with ⟨_ | err, w1⟩ <;>
      simp [APIController.CancelPlaceOrderAction, h, errorResult, Responder.Data,
        DataResponse.withStatus, StatusOK, StatusInternalServerError]
  · rcases h : c.placeorderHandler.ClearPlaceOrder ctx w with ⟨_ | err, w1⟩ <;>
      simp [APIController.ClearPlaceOrderAction, h, errorResult, Responder.Data,
        DataResponse.withStatus, StatusOK, StatusInternalServerError]
  · rcases h : c.placeorderHandler.CurrentContext ctx w with ⟨_ | pctx, w1⟩ <;>
      simp [APIController.CurrentPlaceOrderContextAction, h, errorResult, Responder.Data,
        DataResponse.withStatus, StatusOK, StatusInternalServerError]

/-- Witness for C6: a cancel that fails because no process exists is answered with
the handler's error text and status 500. -/
theorem command_failures_are_reported_witness :
    ((constController
        (constHandler (.ok sampleProcess) (.ok sampleProcess) (.ok sampleProcess)
          (some .NoProcessFound) none)
        (.ok sampleProcess.Cart)).CancelPlaceOrderAction sampleContext ()).1
      = { Data := .error { Code := "500", Message := "NoProcessFound" }, Status := 500 } :=
  (command_failures_are_reported
    (constController
      (constHandler (.ok sampleProcess) (.ok sampleProcess) (.ok sampleProcess)
        (some .NoProcessFound) none)
      (.ok sampleProcess.Cart))
    sampleContext ()).1.1 .NoProcessFound rfl

/-- C7: returnURL is required.  When the cart is retrieved but the returnURL query
parameter is missing or does not parse, the response is an `errorResponse` with Code
"400" and HTTP status 400 (Message "returnURL missing" when the parameter is
absent); the only collaborator called is the cart service, so neither
`Handler.StartPlaceOrder` nor `Handler.RefreshPlaceOrder` is invoked and the world is
the one the cart service left. -/
theorem StartPlaceOrderAction_requires_returnURL {W : Type} (c : APIController W)
    (ctx : Context) (r : Request) (w w1 : W) (cart : Cart)
    (hcart : c.ViewCart ctx (SessionFromContext ctx) w = (.ok cart, w1))
    (hbad : (∃ e, r.Query1 "returnURL" = .error e)
      ∨ ∃ raw e, r.Query1 "returnURL" = .ok raw ∧ c.urlParse raw = .error e) :
    (∃ message, (c.StartPlaceOrderAction ctx r w).1
          = { Data := .error { Code := "400", Message := message }, Status := 400 }
        ∧ ((∃ e, r.Query1 "returnURL" = .error e) → message = "returnURL missing"))
    ∧ (c.StartPlaceOrderAction ctx r w).2.1 = [.ViewCart (SessionFromContext ctx)]
    ∧ (∀ cmd, APICall.StartPlaceOrder cmd ∉ (c.StartPlaceOrderAction ctx r w).2.1)
    ∧ APICall.RefreshPlaceOrder ∉ (c.StartPlaceOrderAction ctx r w).2.1
    ∧ (c.StartPlaceOrderAction ctx r w).2.2 = w1 := by
  rcases hbad with ⟨e, hquery⟩ | ⟨raw, e, hquery, hparse⟩
  · simp [APIController.StartPlaceOrderAction, hcart, hquery, errorResult, Responder.Data,
      DataResponse.withStatus, StatusBadRequest]
  · simp [APIController.StartPlaceOrderAction, hcart, hquery, hparse, errorResult,
      Responder.Data, DataResponse.withStatus, StatusBadRequest]

/-- Witness for C7: a request without returnURL on a session whose cart is retrieved
and whose handler would start a process is answered with 400 "returnURL missing". -/
theorem StartPlaceOrderAction_requires_returnURL_witness :
    ((constController
        (constHandler (.ok sampleProcess) (.ok sampleProcess) (.ok sampleProcess) none none)
        (.ok sampleProcess.Cart)).StartPlaceOrderAction sampleContext (requestWith none) ()).2.1
      = [.ViewCart (SessionFromContext sampleContext)] :=
  (StartPlaceOrderAction_requires_returnURL
    (constController
      (constHandler (.ok sampleProcess) (.ok sampleProcess) (.ok sampleProcess) none none)
      (.ok sampleProcess.Cart))
    sampleContext (requestWith none) () () sampleProcess.Cart rfl
    (Or.inl ⟨.other "query not found", rfl⟩)).2.1

/-- C8: `CurrentPlaceOrderContextAction` only reads.  Of the handler's operations it
calls `CurrentContext` alone (never Start, Refresh, Cancel or Clear), and for every
process the handler returns, the response's UUID, State, StateData and Cart are the
process's UUID, CurrentStateName, CurrentStateData and Cart; OrderInfos is nil exactly
when the process's PlaceOrderInfo is nil and otherwise carries its PaymentInfos,
PlacedOrders and ContactEmail; FailedReason is the empty string when the process has
no FailedReason and `FailedReason.Reason()` otherwise.  The world the action leaves
is the world `CurrentContext` left, passed through `DecoratedCartFactory.Create`
when the process has a PlaceOrderInfo: no other operation acted on it, and the call
record is that one call, or those two. -/
theorem CurrentPlaceOrderContextAction_reads_process {W : Type} (c : APIController W)
    (ctx : Context) (w : W) :
    ((∀ cmd, APICall.StartPlaceOrder cmd ∉ (c.CurrentPlaceOrderContextAction ctx w).2.1)
      ∧ APICall.RefreshPlaceOrder ∉ (c.CurrentPlaceOrderContextAction ctx w).2.1
      ∧ APICall.CancelPlaceOrder ∉ (c.CurrentPlaceOrderContextAction ctx w).2.1
      ∧ APICall.ClearPlaceOrder ∉ (c.CurrentPlaceOrderContextAction ctx w).2.1
      ∧ (c.CurrentPlaceOrderContextAction ctx w).2.1.count APICall.CurrentContext = 1)
    ∧ (∀ pctx, (c.placeorderHandler.CurrentContext ctx w).1 = .ok pctx →
        ∃ out : placeOrderContext,
          (c.CurrentPlaceOrderContextAction ctx w).1 = { Data := .context out, Status := 200 }
          ∧ out.UUID = pctx.UUID
          ∧ out.State = pctx.CurrentStateName
          ∧ out.StateData = pctx.CurrentStateData
          ∧ out.Cart = some pctx.Cart
          ∧ (out.OrderInfos = none ↔ pctx.PlaceOrderInfo = none)
          ∧ (∀ info, pctx.PlaceOrderInfo = some info →
              ∃ infos, out.OrderInfos = some infos
                ∧ infos.PaymentInfos = info.PaymentInfos
                ∧ infos.PlacedOrderInfos = info.PlacedOrders
                ∧ infos.Email = info.ContactEmail
                ∧ infos.PlacedDecoratedCart = some
                    (c.decoratedCartFactoryCreate ctx pctx.Cart
                      (c.placeorderHandler.CurrentContext ctx w).2).1)
          ∧ (pctx.FailedReason = none → out.FailedReason = "")
          ∧ (∀ reason, pctx.FailedReason = some reason →
              out.FailedReason = reason.Reason))
    ∧ (∀ err, (c.placeorderHandler.CurrentContext ctx w).1 = .error err →
        (c.CurrentPlaceOrderContextAction ctx w).2.1 = [.CurrentContext]
        ∧ (c.CurrentPlaceOrderContextAction ctx w).2.2
          = (c.placeorderHandler.CurrentContext ctx w).2)
    ∧ (∀ pctx, (c.placeorderHandler.CurrentContext ctx w).1 = .ok pctx →
        pctx.PlaceOrderInfo = none →
        (c.CurrentPlaceOrderContextAction ctx w).2.1 = [.CurrentContext]
        ∧ (c.CurrentPlaceOrderContextAction ctx w).2.2
          = (c.placeorderHandler.CurrentContext ctx w).2)
    ∧ (∀ pctx info, (c.placeorderHandler.CurrentContext ctx w).1 = .ok pctx →
        pctx.PlaceOrderInfo = some info →
        (c.CurrentPlaceOrderContextAction ctx w).2.1
          = [.CurrentContext, .DecoratedCartFactoryCreate pctx.Cart]
        ∧ (c.CurrentPlaceOrderContextAction ctx w).2.2
          = (c.decoratedCartFactoryCreate ctx pctx.Cart
              (c.placeorderHandler.CurrentContext ctx w).2).2) := by
  rcases h : c.placeorderHandler.CurrentContext ctx w with ⟨err | pctx, w1⟩
  · simp [APIController.CurrentPlaceOrderContextAction, h]
  · rcases hinfo : pctx.PlaceOrderInfo with _ | info
    · rcases hreason : pctx.FailedReason with _ | reason <;>
        simp [APIController.CurrentPlaceOrderContextAction, h, hinfo, hreason,
          Responder.Data, StatusOK] <;>
        (intro other info hother; subst hother; simp [hinfo])
    · rcases hcreate : c.decoratedCartFactoryCreate ctx pctx.Cart w1 with
        ⟨decoratedCart, w2⟩
      rcases hreason : pctx.FailedReason with _ | reason <;>
        simp [APIController.CurrentPlaceOrderContextAction, h, hinfo, hreason, hcreate,
          Responder.Data, StatusOK] <;>
        (intro other info hother _; subst hother; simp [hcreate])

/-- Witness for C8: on a handler whose every other operation changes the stored
process, reading the context of the waiting `sampleProcess` makes the one call
`CurrentContext` and leaves the stored process as it was; reading a placed order
adds only the decorated-cart factory call and also leaves it as it was. -/
theorem CurrentPlaceOrderContextAction_reads_process_witness :
    ((storeController.CurrentPlaceOrderContextAction sampleContext (some sampleProcess)).2.1
        = [.CurrentContext]
      ∧ (storeController.CurrentPlaceOrderContextAction sampleContext
          (some sampleProcess)).2.2 = some sampleProcess)
    ∧ ((storeController.CurrentPlaceOrderContextAction sampleContext
          (some placedProcess)).2.1
        = [.CurrentContext, .DecoratedCartFactoryCreate placedProcess.Cart]
      ∧ (storeController.CurrentPlaceOrderContextAction sampleContext
          (some placedProcess)).2.2 = some placedProcess) :=
  ⟨(CurrentPlaceOrderContextAction_reads_process storeController sampleContext
      (some sampleProcess)).2.2.2.1 sampleProcess rfl rfl,
    (CurrentPlaceOrderContextAction_reads_process storeController sampleContext
      (some placedProcess)).2.2.2.2 placedProcess
      { PaymentInfos := [{ ident := "payment-1" }]
        PlacedOrders := [{ OrderNumber := "order-1" }]
        ContactEmail := "billing@shop.example" } rfl rfl⟩

/-! ## Theorems: `getCart.go` -/

/-- C10: the template functions of `GetCart.Func` and `GetDecoratedCart.Func` are total
and never dereference nil.  Whatever `ViewCart` / `ViewDecoratedCart` returns, the
function returns a value (no panic): the zero-valued cart when the pointer is nil, with
or without an error, and the value the pointer refers to otherwise, even when an error
comes with it.  The error is only logged (one `Logger.Error` call) and is no part of
the result. -/
theorem template_functions_never_dereference_nil {W : Type} (tf : GetCart W)
    (tfd : GetDecoratedCart W) (ctx : Context) (w : W) :
    ((∀ e, (tf.ViewCart ctx w).1 = (none, e) → (tf.Func ctx w).1 = .ok Cart.zero)
      ∧ (∀ c e, (tf.ViewCart ctx w).1 = (some c, e) → (tf.Func ctx w).1 = .ok c)
      ∧ (∀ message, (tf.Func ctx w).1 ≠ .error message)
      ∧ (∀ c err, (tf.ViewCart ctx w).1 = (c, some err) →
          (tf.Func ctx w).2.1
            = [.ViewCart, .LoggerError "Error: cart.interfaces.templatefunc %v" err])
      ∧ (∀ c, (tf.ViewCart ctx w).1 = (c, none) → (tf.Func ctx w).2.1 = [.ViewCart]))
    ∧ ((∀ e, (tfd.ViewDecoratedCart ctx w).1 = (none, e) →
          (tfd.Func ctx w).1 = .ok DecoratedCart.zero)
      ∧ (∀ c e, (tfd.ViewDecoratedCart ctx w).1 = (some c, e) →
          (tfd.Func ctx w).1 = .ok c)
      ∧ (∀ message, (tfd.Func ctx w).1 ≠ .error message)
      ∧ (∀ c err, (tfd.ViewDecoratedCart ctx w).1 = (c, some err) →
          (tfd.Func ctx w).2.1
            = [.ViewDecoratedCart,
                .LoggerError "Error: cart.interfaces.templatefunc %v" err])
      ∧ (∀ c, (tfd.ViewDecoratedCart ctx w).1 = (c, none) →
          (tfd.Func ctx w).2.1 = [.ViewDecoratedCart])) := by
  constructor
  · rcases h : tf.ViewCart ctx w with ⟨⟨_ | c, _ | err⟩, w1⟩ <;>
      simp [GetCart.Func, h, deref]
  · rcases h : tfd.ViewDecoratedCart ctx w with ⟨⟨_ | c, _ | err⟩, w1⟩ <;>
      simp [GetDecoratedCart.Func, h, deref]

/-- Witness for C10: a cart service that returns a nil cart together with an error
makes both template functions return the zero value. -/
theorem template_functions_never_dereference_nil_witness :
    (GetCart.Func { ViewCart := fun _ w => ((none, some (.other "no cart")), w) }
        sampleContext ()).1 = .ok Cart.zero
    ∧ (GetDecoratedCart.Func
        { ViewDecoratedCart := fun _ w => ((none, some (.other "no cart")), w) }
        sampleContext ()).1 = .ok DecoratedCart.zero :=
  have h := template_functions_never_dereference_nil
    ({ ViewCart := fun _ w => ((none, some (.other "no cart")), w) } : GetCart Unit)
    ({ ViewDecoratedCart := fun _ w => ((none, some (.other "no cart")), w) } :
      GetDecoratedCart Unit)
    sampleContext ()
  ⟨h.1.1 (some (.other "no cart")) rfl, h.2.1 (some (.other "no cart")) rfl⟩

/-! ## Theorems: `checkoutcontroller.go` -/

/-- C9: `submitOrderForm` never places an order for an empty cart.  It calls
`OrderService.PlaceOrder` at most once, and only if the cart was fetched without
error, the form service is non-nil, form processing returned no error, the cart's
`ItemCount` is non-zero, the form is valid and submitted, and the form data is a
`CheckoutFormData`; it redirects to `checkout.success` only if that `PlaceOrder` call
returned no error.  On every other path the order service does not act: the world
the function leaves is the world left by the cart service, the form processing and,
where the form is rendered again, the cart validation, so for a cart with
`ItemCount` zero it is the world `ValidateCart` left after the form processing.  On
the one path that places the order the world is the one `PlaceOrder` left, passed
through `ValidateCart` when the order failed. -/
theorem submitOrderForm_places_order_only_for_filled_cart {W : Type}
    (cc : CheckoutController W) (ctx : Context) (formservice : Option CheckoutFormService)
    (template : String) (w : W) :
    ((cc.submitOrderForm ctx formservice template w).2.1.countP CheckoutCall.isPlaceOrder ≤ 1)
    ∧ ((∃ call ∈ (cc.submitOrderForm ctx formservice template w).2.1,
          call.isPlaceOrder = true) →
        ∃ decoratedCart w1 fs form w2 data,
          cc.GetDecoratedCart ctx w = ((decoratedCart, none), w1)
          ∧ formservice = some fs
          ∧ cc.ProcessFormRequest ctx fs w1 = ((form, none), w2)
          ∧ decoratedCart.Cart.ItemCount ≠ 0
          ∧ form.IsValidAndSubmitted = true
          ∧ form.Data = .checkout data)
    ∧ (∀ key data, (cc.submitOrderForm ctx formservice template w).1
          = .RedirectWith "checkout.success" key data →
        ∃ decoratedCart w1 fs form w2 formData orderID w3,
          cc.GetDecoratedCart ctx w = ((decoratedCart, none), w1)
          ∧ formservice = some fs
          ∧ cc.ProcessFormRequest ctx fs w1 = ((form, none), w2)
          ∧ decoratedCart.Cart.ItemCount ≠ 0
          ∧ form.Data = .checkout formData
          ∧ cc.PlaceOrder ctx decoratedCart "ispu" "ispu" (cc.MapAddresses formData).1
              (cc.MapAddresses formData).2 w2 = ((orderID, none), w3)
          ∧ CheckoutCall.PlaceOrder decoratedCart "ispu" "ispu"
              (cc.MapAddresses formData).1 (cc.MapAddresses formData).2
            ∈ (cc.submitOrderForm ctx formservice template w).2.1)
    ∧ (∀ decoratedCart e w1, cc.GetDecoratedCart ctx w = ((decoratedCart, some e), w1) →
        cc.submitOrderForm ctx formservice template w
          = (.Render "checkout/carterror" none,
              [.GetDecoratedCart,
                .LoggerErrorf "cart.checkoutcontroller.submitaction: Error %v" e], w1))
    ∧ (∀ decoratedCart w1, cc.GetDecoratedCart ctx w = ((decoratedCart, none), w1) →
        formservice = none →
        (cc.submitOrderForm ctx formservice template w).1 = .Render "checkout/carterror" none
        ∧ (cc.submitOrderForm ctx formservice template w).2.1.countP
            CheckoutCall.isPlaceOrder = 0
        ∧ (cc.submitOrderForm ctx formservice template w).2.2 = w1)
    ∧ (∀ decoratedCart w1 fs form formError w2,
        cc.GetDecoratedCart ctx w = ((decoratedCart, none), w1) →
        formservice = some fs →
        cc.ProcessFormRequest ctx fs w1 = ((form, formError), w2) →
        (formError ≠ none ∨ decoratedCart.Cart.ItemCount = 0
          ∨ form.IsValidAndSubmitted = false) →
        cc.submitOrderForm ctx formservice template w
          = (.Render template (some
                { DecoratedCart := decoratedCart
                  Form := form
                  CartValidationResult := (cc.ValidateCart ctx decoratedCart w2).1
                  ErrorMessage := ""
                  HasSubmitError := false }),
              [.GetDecoratedCart, .ProcessFormRequest fs, .ValidateCart decoratedCart],
              (cc.ValidateCart ctx decoratedCart w2).2))
    ∧ (∀ decoratedCart w1 fs form w2 typeName,
        cc.GetDecoratedCart ctx w = ((decoratedCart, none), w1) →
        formservice = some fs →
        cc.ProcessFormRequest ctx fs w1 = ((form, none), w2) →
        decoratedCart.Cart.ItemCount ≠ 0 →
        form.IsValidAndSubmitted = true →
        form.Data = .other typeName →
        (cc.submitOrderForm ctx formservice template w).1 = .Render "checkout/carterror" none
        ∧ (cc.submitOrderForm ctx formservice template w).2.1.countP
            CheckoutCall.isPlaceOrder = 0
        ∧ (cc.submitOrderForm ctx formservice template w).2.2 = w2)
    ∧ (∀ decoratedCart w1 fs form w2 formData orderID orderError w3,
        cc.GetDecoratedCart ctx w = ((decoratedCart, none), w1) →
        formservice = some fs →
        cc.ProcessFormRequest ctx fs w1 = ((form, none), w2) →
        decoratedCart.Cart.ItemCount ≠ 0 →
        form.IsValidAndSubmitted = true →
        form.Data = .checkout formData →
        cc.PlaceOrder ctx decoratedCart "ispu" "ispu" (cc.MapAddresses formData).1
            (cc.MapAddresses formData).2 w2 = ((orderID, orderError), w3) →
        (cc.submitOrderForm ctx formservice template w).2.1.countP
            CheckoutCall.isPlaceOrder = 1
        ∧ (orderError = none →
            (cc.submitOrderForm ctx formservice template w).2.2 = w3)
        ∧ (orderError ≠ none →
            (cc.submitOrderForm ctx formservice template w).2.2
              = (cc.ValidateCart ctx decoratedCart w3).2)) := by
  have hcalls :
        ((cc.submitOrderForm ctx formservice template w).2.1.countP CheckoutCall.isPlaceOrder ≤ 1)
        ∧ ((∃ call ∈ (cc.submitOrderForm ctx formservice template w).2.1,
              call.isPlaceOrder = true) →
            ∃ decoratedCart w1 fs form w2 data,
              cc.GetDecoratedCart ctx w = ((decoratedCart, none), w1)
              ∧ formservice = some fs
              ∧ cc.ProcessFormRequest ctx fs w1 = ((form, none), w2)
              ∧ decoratedCart.Cart.ItemCount ≠ 0
              ∧ form.IsValidAndSubmitted = true
              ∧ form.Data = .checkout data)
        ∧ (∀ key data, (cc.submitOrderForm ctx formservice template w).1
              = .RedirectWith "checkout.success" key data →
            ∃ decoratedCart w1 fs form w2 formData orderID w3,
              cc.GetDecoratedCart ctx w = ((decoratedCart, none), w1)
              ∧ formservice = some fs
              ∧ cc.ProcessFormRequest ctx fs w1 = ((form, none), w2)
              ∧ decoratedCart.Cart.ItemCount ≠ 0
              ∧ form.Data = .checkout formData
              ∧ cc.PlaceOrder ctx decoratedCart "ispu" "ispu" (cc.MapAddresses formData).1
                  (cc.MapAddresses formData).2 w2 = ((orderID, none), w3)
              ∧ CheckoutCall.PlaceOrder decoratedCart "ispu" "ispu"
                  (cc.MapAddresses formData).1 (cc.MapAddresses formData).2
                ∈ (cc.submitOrderForm ctx formservice template w).2.1) := by
    rcases hcart : cc.GetDecoratedCart ctx w with ⟨⟨decoratedCart, _ | e⟩, w1⟩
    swap
    · simp [CheckoutController.submitOrderForm, hcart, CheckoutCall.isPlaceOrder]
    rcases formservice with _ | fs
    · simp [CheckoutController.submitOrderForm, hcart, CheckoutCall.isPlaceOrder]
    rcases hform : cc.ProcessFormRequest ctx fs w1 with ⟨⟨form, _ | e⟩, w2⟩
    swap
    · simp [CheckoutController.submitOrderForm, hcart, hform, CheckoutCall.isPlaceOrder,
        CheckoutController.renderForm]
    by_cases hcount : decoratedCart.Cart.ItemCount = 0
    · simp [CheckoutController.submitOrderForm, hcart, hform, hcount,
        CheckoutCall.isPlaceOrder, CheckoutController.renderForm]
    by_cases hvalid : form.IsValidAndSubmitted = true
    swap
    · simp [CheckoutController.submitOrderForm, hcart, hform, hcount, hvalid,
        CheckoutCall.isPlaceOrder, CheckoutController.renderForm]
    rcases hdata : form.Data with formData | typeName
    swap
    · simp [CheckoutController.submitOrderForm, hcart, hform, hcount, hvalid, hdata,
        CheckoutCall.isPlaceOrder]
    rcases horder : cc.PlaceOrder ctx decoratedCart "ispu" "ispu" (cc.MapAddresses formData).1
        (cc.MapAddresses formData).2 w2 with ⟨⟨orderID, _ | err⟩, w3⟩
    · simp [CheckoutController.submitOrderForm, hcart, hform, hcount, hvalid, hdata, horder,
        CheckoutCall.isPlaceOrder, CheckoutController.renderForm,
        CheckoutController.placeOrder, List.countP_cons]
      exact ⟨⟨decoratedCart, w1, ⟨rfl, rfl⟩, form, ⟨w2, hform⟩, hcount, hvalid, formData,
          hdata⟩,
        decoratedCart, w1, ⟨rfl, rfl⟩, form, w2, hform, hcount, formData, hdata,
        ⟨orderID, w3, horder⟩, rfl, rfl, rfl⟩
    · simp [CheckoutController.submitOrderForm, hcart, hform, hcount, hvalid, hdata, horder,
        CheckoutCall.isPlaceOrder, CheckoutController.renderForm,
        CheckoutController.placeOrder, List.countP_cons]
      exact ⟨decoratedCart, w1, ⟨rfl, rfl⟩, form, ⟨w2, hform⟩, hcount, hvalid, formData,
        hdata⟩
  refine ⟨hcalls.1, hcalls.2.1, hcalls.2.2, ?_, ?_, ?_, ?_, ?_⟩
  · intro decoratedCart e w1 hcart
    simp [CheckoutController.submitOrderForm, hcart]
  · intro decoratedCart w1 hcart hfs
    subst hfs
    simp [CheckoutController.submitOrderForm, hcart, CheckoutCall.isPlaceOrder]
  · intro decoratedCart w1 fs form formError w2 hcart hfs hform hguard
    subst hfs
    rcases hvalidate : cc.ValidateCart ctx decoratedCart w2 with ⟨validation, w3⟩
    rcases formError with _ | e
    · rcases hguard with hguard | hguard | hguard
      · exact absurd rfl hguard
      · simp [CheckoutController.submitOrderForm, hcart, hform, hguard, hvalidate,
          CheckoutController.renderForm]
      · by_cases hcount : decoratedCart.Cart.ItemCount = 0
        · simp [CheckoutController.submitOrderForm, hcart, hform, hcount, hvalidate,
            CheckoutController.renderForm]
        · simp [CheckoutController.submitOrderForm, hcart, hform, hcount, hguard,
            hvalidate, CheckoutController.renderForm]
    · simp [CheckoutController.submitOrderForm, hcart, hform, hvalidate,
        CheckoutController.renderForm]
  · intro decoratedCart w1 fs form w2 typeName hcart hfs hform hcount hvalid hdata
    subst hfs
    simp [CheckoutController.submitOrderForm, hcart, hform, hcount, hvalid, hdata,
      CheckoutCall.isPlaceOrder]
  · intro decoratedCart w1 fs form w2 formData orderID orderError w3 hcart hfs hform
      hcount hvalid hdata horder
    subst hfs
    rcases hvalidate : cc.ValidateCart ctx decoratedCart w3 with ⟨validation, w4⟩
    rcases orderError with _ | err <;>
      simp [CheckoutController.submitOrderForm, hcart, hform, hcount, hvalid, hdata,
        horder, hvalidate, CheckoutCall.isPlaceOrder, CheckoutController.renderForm,
        CheckoutController.placeOrder, List.countP_cons]

/-- Witness for C9: in a world that counts the orders placed, a valid, submitted form
on a cart with `ItemCount` zero renders the form again and leaves the count at zero;
the same form on a cart with two items places one order. -/
theorem submitOrderForm_places_order_only_for_filled_cart_witness :
    (((countingCheckoutController
          ({ Cart := { ID := "cart-0", ItemCount := 0 }, Decoration := "" }, none)
          (sampleForm, none)).submitOrderForm sampleContext (some { Customer := none })
        "checkout/guestcheckout" 0).2.2 = 0
      ∧ ((countingCheckoutController
          ({ Cart := { ID := "cart-0", ItemCount := 0 }, Decoration := "" }, none)
          (sampleForm, none)).submitOrderForm sampleContext (some { Customer := none })
        "checkout/guestcheckout" 0).2.1
        = [.GetDecoratedCart, .ProcessFormRequest { Customer := none },
            .ValidateCart { Cart := { ID := "cart-0", ItemCount := 0 }, Decoration := "" }])
    ∧ ((countingCheckoutController
          ({ Cart := { ID := "cart-1", ItemCount := 2 }, Decoration := "" }, none)
          (sampleForm, none)).submitOrderForm sampleContext (some { Customer := none })
        "checkout/guestcheckout" 0).2.2 = 1 :=
  have hempty := (submitOrderForm_places_order_only_for_filled_cart
    (countingCheckoutController
      ({ Cart := { ID := "cart-0", ItemCount := 0 }, Decoration := "" }, none)
      (sampleForm, none))
    sampleContext (some { Customer := none }) "checkout/guestcheckout" 0).2.2.2.2.2.1
    { Cart := { ID := "cart-0", ItemCount := 0 }, Decoration := "" } 0
    { Customer := none } sampleForm none 0 rfl rfl rfl (Or.inr (Or.inl rfl))
  have hfilled := ((submitOrderForm_places_order_only_for_filled_cart
    (countingCheckoutController
      ({ Cart := { ID := "cart-1", ItemCount := 2 }, Decoration := "" }, none)
      (sampleForm, none))
    sampleContext (some { Customer := none }) "checkout/guestcheckout" 0).2.2.2.2.2.2.2
    { Cart := { ID := "cart-1", ItemCount := 2 }, Decoration := "" } 0
    { Customer := none } sampleForm 0
    { BillingAddress := { Email := "billing@shop.example" }
      ShippingAddress := { Email := "" } }
    "order-1" none 1 rfl rfl rfl (by decide) rfl rfl (by decide)).2.1 rfl
  ⟨⟨(congrArg (fun r => r.2.2) hempty).trans rfl,
      (congrArg (fun r => r.2.1) hempty).trans rfl⟩, hfilled⟩

/-! ## Theorems: the place-order engine -/

/-- The unwind is the left fold of `unwindStep` over the reversed ledger. -/
theorem Engine.rollback_eq_foldl {W : Type} (eng : Engine W) (ctx : Context)
    (ledger : List RollbackReference) (w : W) :
    eng.rollback ctx ledger w = ledger.reverse.foldl (eng.unwindStep ctx) ([], w) := by
  induction ledger with
  | nil => rfl
  | cons entry later ih =>
    simp only [Engine.rollback, List.reverse_cons, List.foldl_append, List.foldl_cons,
      List.foldl_nil, ih, Engine.unwindStep]

/-- The rollback calls of an unwind are the ledger entries, last appended first. -/
theorem Engine.rollback_entries {W : Type} (eng : Engine W) (ctx : Context)
    (ledger : List RollbackReference) (w : W) :
    (eng.rollback ctx ledger w).1.filterMap EngineCall.rollbackEntry = ledger.reverse := by
  induction ledger with
  | nil => rfl
  | cons entry later ih =>
    simp only [Engine.rollback, List.reverse_cons, List.filterMap_append, ih]
    rfl

/-- Every exit of the transition loop persists the process it returns. -/
theorem Engine.run_persists {W : Type} (eng : Engine W) (ctx : Context) (fuel : Nat)
    (p : Process) (es : EngineState W) :
    (eng.run ctx fuel p es).2.2.Load ctx = some (eng.run ctx fuel p es).1 := by
  induction fuel generalizing p es with
  | zero => simp [Engine.run, EngineState.Load, EngineState.Save]
  | succ fuel ih =>
    unfold Engine.run
    split
    · simp [EngineState.Load, EngineState.Save]
    · split
      split
      · simp [EngineState.Load, EngineState.Save]
      · split
        · simp [EngineState.Load, EngineState.Save]
        · exact ih _ _

/-- While a non-final process is stored for the session, `StartPlaceOrder` fails with
`AnotherProcessRunning`, calls no state and leaves store and world as they are. -/
theorem Engine.StartPlaceOrder_rejected {W : Type} (eng : Engine W) (ctx : Context)
    (cmd : StartPlaceOrderCommand) (es : EngineState W) (p : Process)
    (hload : es.Load ctx = some p) (hfinal : eng.isFinal p = false) :
    eng.StartPlaceOrder ctx cmd es = (.error .ErrAnotherPlaceOrderProcessRunning, [], es) := by
  simp [Engine.StartPlaceOrder, hload, hfinal]

/-- A successful `StartPlaceOrder` leaves the process it returns in the store. -/
theorem Engine.StartPlaceOrder_persists {W : Type} (eng : Engine W) (ctx : Context)
    (cmd : StartPlaceOrderCommand) (es : EngineState W) (p : Process)
    (hstart : (eng.StartPlaceOrder ctx cmd es).1 = .ok p) :
    (eng.StartPlaceOrder ctx cmd es).2.2.Load ctx = some p := by
  have hrun := fun (w1 : W) (fresh : Process) =>
    eng.run_persists ctx eng.maxSteps fresh { store := es.store, world := w1 }
  unfold Engine.StartPlaceOrder at hstart ⊢
  rcases hload : es.Load ctx with _ | existing
  · simp only [hload] at hstart ⊢
    simp only [Except.ok.injEq] at hstart
    rw [← hstart]
    exact hrun _ _
  · simp only [hload] at hstart ⊢
    by_cases hfinal : eng.isFinal existing = true
    · simp only [hfinal, if_true] at hstart ⊢
      simp only [Except.ok.injEq] at hstart
      rw [← hstart]
      exact hrun _ _
    · simp [hfinal] at hstart

/-- C2: when `StartPlaceOrder` is called twice for a session with no `ClearPlaceOrder`
in between and the process of the first call has not completed (it is not final), the
second call returns `AnotherProcessRunning`, runs no state and creates no second
process: store and world are exactly as the first call left them, and the stored
process, UUID included, is the one the first call created. -/
theorem StartPlaceOrder_twice_keeps_first_process {W : Type} (eng : Engine W)
    (ctx : Context) (cmd1 cmd2 : StartPlaceOrderCommand) (es : EngineState W)
    (p1 : Process)
    (hfirst : (eng.StartPlaceOrder ctx cmd1 es).1 = .ok p1)
    (hopen : eng.isFinal p1 = false) :
    (eng.StartPlaceOrder ctx cmd2 (eng.StartPlaceOrder ctx cmd1 es).2.2).1
        = .error .ErrAnotherPlaceOrderProcessRunning
    ∧ (eng.StartPlaceOrder ctx cmd2 (eng.StartPlaceOrder ctx cmd1 es).2.2).2.1 = []
    ∧ (eng.StartPlaceOrder ctx cmd2 (eng.StartPlaceOrder ctx cmd1 es).2.2).2.2
        = (eng.StartPlaceOrder ctx cmd1 es).2.2
    ∧ (eng.StartPlaceOrder ctx cmd2 (eng.StartPlaceOrder ctx cmd1 es).2.2).2.2.Load ctx
        = some p1
    ∧ ((eng.StartPlaceOrder ctx cmd2 (eng.StartPlaceOrder ctx cmd1 es).2.2).2.2.Load ctx).map
        Process.UUID = some p1.UUID := by
  have hstored := eng.StartPlaceOrder_persists ctx cmd1 es p1 hfirst
  have hsecond := eng.StartPlaceOrder_rejected ctx cmd2 _ p1 hstored hopen
  rw [hsecond]
  simp [hstored]

/-- Witness for C2: on an empty store the sample engine starts a process that waits
for the payment; a second start, for another cart, is refused and the stored process
is still the first one, `uuid-0`. -/
theorem StartPlaceOrder_twice_keeps_first_process_witness :
    (sampleEngine.StartPlaceOrder sampleContext
        { Cart := { ID := "cart-2", ItemCount := 1 }, ReturnURL := none }
        (sampleEngine.StartPlaceOrder sampleContext sampleCommand emptyEngineState).2.2).1
      = .error .ErrAnotherPlaceOrderProcessRunning
    ∧ ((sampleEngine.StartPlaceOrder sampleContext
        { Cart := { ID := "cart-2", ItemCount := 1 }, ReturnURL := none }
        (sampleEngine.StartPlaceOrder sampleContext sampleCommand
          emptyEngineState).2.2).2.2.Load sampleContext).map Process.UUID
      = some "uuid-0" :=
  have h := StartPlaceOrder_twice_keeps_first_process sampleEngine sampleContext
    sampleCommand { Cart := { ID := "cart-2", ItemCount := 1 }, ReturnURL := none }
    emptyEngineState
    { UUID := "uuid-0"
      Cart := { ID := "cart-1", ItemCount := 2 }
      CurrentStateName := "AwaitPaymentConfirmation"
      CurrentStateData := some "intent-7"
      RollbackLedger := [{ StateName := "ValidateCart", Data := none },
        { StateName := "CreatePayment", Data := some "intent-7" }]
      FailedReason := none
      PlaceOrderInfo := none
      ReturnURL := some { raw := "https://shop.example/return" } }
    (by decide) (by decide)
  ⟨h.1, h.2.2.2.2⟩

/-- C3: for every process and every ledger, the rollback invokes `State.Rollback` on
the ledger entries in strict reverse order of appending: the recorded calls are
exactly the reversed ledger, each call made on the originating state with the
recorded data in the world its predecessor left, whatever errors the calls return.
The process always ends in the final `Failed` state carrying the original
`FailedReason`; the same holds when a failing `Run` triggers the rollback inside the
transition loop. -/
theorem rollback_unwinds_in_reverse_and_fails {W : Type} (eng : Engine W) (ctx : Context)
    (p : Process) (reason : FailedReason) (w : W) :
    ((eng.fail ctx p reason w).2.1.filterMap EngineCall.rollbackEntry
        = p.RollbackLedger.reverse
      ∧ (eng.fail ctx p reason w).2.1.length = p.RollbackLedger.length
      ∧ (eng.fail ctx p reason w).2
        = p.RollbackLedger.reverse.foldl (eng.unwindStep ctx) ([], w))
    ∧ ((eng.fail ctx p reason w).1.CurrentStateName = "Failed"
      ∧ eng.isFinal (eng.fail ctx p reason w).1 = true
      ∧ (eng.fail ctx p reason w).1.FailedReason = some reason
      ∧ (eng.fail ctx p reason w).1.UUID = p.UUID
      ∧ (eng.fail ctx p reason w).1.RollbackLedger = p.RollbackLedger)
    ∧ ∀ (fuel : Nat) (es : EngineState W) (result : RunResult) (after : Process) (w1 : W),
        eng.isFinal p = false →
        (eng.resolve p.CurrentStateName).Run ctx p p.CurrentStateData es.world
          = ((result, after), w1) →
        result.Failed = some reason →
        (eng.run ctx (fuel + 1) p es).1 = (eng.fail ctx p reason w1).1
        ∧ (eng.run ctx (fuel + 1) p es).2.1
          = .Run p.CurrentStateName :: (eng.fail ctx p reason w1).2.1
        ∧ (eng.run ctx (fuel + 1) p es).2.2.Load ctx = some (eng.fail ctx p reason w1).1 := by
  have hlen : ∀ (ledger : List RollbackReference) (w0 : W),
      (eng.rollback ctx ledger w0).1.length = ledger.length := by
    intro ledger
    induction ledger with
    | nil => intro w0; rfl
    | cons entry later ih =>
      intro w0
      simp [Engine.rollback, ih]
  refine ⟨⟨?_, ?_, ?_⟩, ⟨?_, ?_, ?_, ?_, ?_⟩, ?_⟩
  · simpa [Engine.fail] using eng.rollback_entries ctx p.RollbackLedger w
  · simpa [Engine.fail] using hlen p.RollbackLedger w
  · simpa [Engine.fail] using eng.rollback_eq_foldl ctx p.RollbackLedger w
  · simp [Engine.fail, Failed]
  · simp [Engine.fail, Engine.isFinal, Engine.resolve, Failed]
  · simp [Engine.fail]
  · simp [Engine.fail]
  · simp [Engine.fail]
  · intro fuel es result after w1 hopen hrun hfailed
    simp [Engine.run, hopen, hrun, hfailed, EngineState.Load, EngineState.Save]

/-- Witness for C3: in the sample engine the order store is down and every
compensating action fails.  A process that fails in `PersistOrder` with three
entries in its ledger (`ValidateCart`, `CreatePayment`, `AwaitPaymentConfirmation`,
in the order they were appended) is unwound last entry first: each of the three
rollback calls returns an error, none stops the unwind, and the process ends in
`Failed` with the reason "order store down" and its ledger intact. -/
theorem rollback_unwinds_in_reverse_and_fails_witness :
    ((sampleEngine.run sampleContext 1 persistingProcess emptyEngineState).2.1
        = [.Run "PersistOrder",
            .Rollback "AwaitPaymentConfirmation" (some "confirmed-7")
              (some (.other "rollback of AwaitPaymentConfirmation failed")),
            .Rollback "CreatePayment" (some "intent-7")
              (some (.other "rollback of CreatePayment failed")),
            .Rollback "ValidateCart" none
              (some (.other "rollback of ValidateCart failed"))]
      ∧ (sampleEngine.run sampleContext 1 persistingProcess emptyEngineState).1
        = { persistingProcess with
              CurrentStateName := "Failed"
              CurrentStateData := none
              FailedReason := some { Reason := "order store down" } })
    ∧ ((sampleEngine.fail sampleContext persistingProcess
          { Reason := "order store down" } 0).2.1.filterMap EngineCall.rollbackEntry
        = [{ StateName := "AwaitPaymentConfirmation", Data := some "confirmed-7" },
            { StateName := "CreatePayment", Data := some "intent-7" },
            { StateName := "ValidateCart", Data := none }]
      ∧ sampleEngine.isFinal (sampleEngine.fail sampleContext persistingProcess
          { Reason := "order store down" } 0).1 = true
      ∧ (sampleEngine.fail sampleContext persistingProcess
          { Reason := "order store down" } 0).1.FailedReason
        = some { Reason := "order store down" }) :=
  have h := rollback_unwinds_in_reverse_and_fails sampleEngine sampleContext
    persistingProcess { Reason := "order store down" } 0
  have hrun := h.2.2 0 emptyEngineState
    { RollbackData := none, Failed := some { Reason := "order store down" } }
    persistingProcess 0 (by decide) (by decide) rfl
  ⟨⟨hrun.2.1.trans (by decide), hrun.1.trans (by decide)⟩,
    h.1.1.trans (by decide), h.2.1.2.1, h.2.1.2.2.1⟩

/-- C4: for every persisted process whose current state is not final,
`ClearPlaceOrder` fails with `ProcessNotFinal` and leaves store and world untouched,
so the stored process after the call is the stored process before it; a process
whose current state is final is removed; and the process is gone after the call only
if its state was final. -/
theorem ClearPlaceOrder_only_when_final {W : Type} (eng : Engine W) (ctx : Context)
    (es : EngineState W) (p : Process) (hload : es.Load ctx = some p) :
    (eng.isFinal p = false →
        eng.ClearPlaceOrder ctx es = (some .ProcessNotFinal, [], es)
        ∧ (eng.ClearPlaceOrder ctx es).2.2.Load ctx = some p)
    ∧ (eng.isFinal p = true →
        (eng.ClearPlaceOrder ctx es).1 = none
        ∧ (eng.ClearPlaceOrder ctx es).2.2.Load ctx = none)
    ∧ ((eng.ClearPlaceOrder ctx es).2.2.Load ctx = none → eng.isFinal p = true) := by
  by_cases hfinal : eng.isFinal p = true
  · simp only [Engine.ClearPlaceOrder, hload, hfinal]
    simp [EngineState.Load, EngineState.Delete]
  · simp [Engine.ClearPlaceOrder, hload, hfinal]

/-- Witness for C4: the process the sample engine has just started waits for the
payment, and clearing it is refused with `ProcessNotFinal`. -/
theorem ClearPlaceOrder_only_when_final_witness :
    (sampleEngine.ClearPlaceOrder sampleContext
        (sampleEngine.StartPlaceOrder sampleContext sampleCommand emptyEngineState).2.2).1
      = some .ProcessNotFinal :=
  congrArg Prod.fst
    ((ClearPlaceOrder_only_when_final sampleEngine sampleContext
      (sampleEngine.StartPlaceOrder sampleContext sampleCommand emptyEngineState).2.2
      { UUID := "uuid-0"
        Cart := { ID := "cart-1", ItemCount := 2 }
        CurrentStateName := "AwaitPaymentConfirmation"
        CurrentStateData := some "intent-7"
        RollbackLedger := [{ StateName := "ValidateCart", Data := none },
          { StateName := "CreatePayment", Data := some "intent-7" }]
        FailedReason := none
        PlaceOrderInfo := none
        ReturnURL := some { raw := "https://shop.example/return" } }
      (by decide)).1 (by decide)).1

end Flamingo
